import Mathlib

/-
Verification of the ngff-zarr version-conversion fragment:
`src/py/ngff_zarr/_supported_versions.py` and
`src/py/ngff_zarr/v05/zarr_metadata.py`.

The v0.5 `Metadata` dataclass and the two registry constants are embedded
directly from the source.  The v0.4 `Metadata` dataclass and the shared value
types (`Axis`, `Transform`, `Dataset`, `Omero`, `MethodMetadata`) live in
`v04/zarr_metadata.py`, which is not part of the given sources; they are
modelled from the specification, which treats them as opaque shared value
types and gives the v0.4 record the same seven logical fields as v0.5.

A Python method that can raise is embedded as `Except String _`, the raised
`ValueError` message becoming the `.error` payload.  A method that can fall
off the end of its body (returning Python `None`) has an `Option` layer in
its result: `Except.ok none` is Python returning `None`.
-/

namespace NgffZarr

/-- `SUPPORTED_VERSIONS` from `_supported_versions.py`: the supported NGFF
specification versions, in declared order. -/
def SUPPORTED_VERSIONS : List String := ["0.4", "0.5", "0.6"]

/-- `VERSION_ALIASES` from `_supported_versions.py`: the version mapping used
for conversion compatibility, embedded as an association list in the
declaration order of the Python dict. -/
def VERSION_ALIASES : List (String × String) :=
  [("0.4", "0.4"), ("0.5", "0.5"), ("0.6", "0.6"), ("latest", "0.6")]

/-- Modelled from the spec: `Axis` from `v04/zarr_metadata.py` (not among the
given sources) is a descriptor of one array dimension carrying a name and
optional type/unit. -/
structure Axis where
  name : String
  type : Option String := none
  unit : Option String := none
deriving DecidableEq, Repr

/-- Modelled from the spec: `Transform` from `v04/zarr_metadata.py` (not among
the given sources) is treated as an opaque shared value type; only its
identity matters to the conversion code, so it is carried as a tag. -/
structure Transform where
  tag : String
deriving DecidableEq, Repr

/-- Modelled from the spec: `Dataset` from `v04/zarr_metadata.py` (not among
the given sources) is one resolution level: an array path plus its coordinate
transformations.  The conversion code never inspects it. -/
structure Dataset where
  path : String
  coordinateTransformations : List Transform := []
deriving DecidableEq, Repr

/-- Modelled from the spec: `Omero` from `v04/zarr_metadata.py` (not among the
given sources) is a legacy presentation/channel metadata block, opaque to the
conversion code. -/
structure Omero where
  tag : String
deriving DecidableEq, Repr

/-- Modelled from the spec: `MethodMetadata` from `v04/zarr_metadata.py` (not
among the given sources) is a structured record of the downsampling method and
its parameters, opaque to the conversion code. -/
structure MethodMetadata where
  tag : String
deriving DecidableEq, Repr

namespace v04

/-- Modelled from the spec: the 0.4-version `Metadata` dataclass from
`v04/zarr_metadata.py` (not among the given sources).  Per the spec every
version variant shares the same seven logical fields, and the 0.4 ↔ 0.5
field-mapping table is identity in both directions. -/
structure Metadata where
  axes : List Axis
  datasets : List Dataset
  coordinateTransformations : Option (List Transform)
  omero : Option Omero := none
  name : String := "image"
  type : Option String := none
  metadata : Option MethodMetadata := none
deriving DecidableEq, Repr

end v04

namespace v05

/-- The 0.5-version `Metadata` dataclass from `v05/zarr_metadata.py`, with the
source's field order and defaults. -/
structure Metadata where
  axes : List Axis
  datasets : List Dataset
  coordinateTransformations : Option (List Transform)
  omero : Option Omero := none
  name : String := "image"
  type : Option String := none
  metadata : Option MethodMetadata := none
deriving DecidableEq, Repr

/-- `Metadata.to_v04`: builds a 0.4-version record populated field-for-field
from the receiver.  Total by construction, as in the source. -/
def Metadata.to_v04 (self : Metadata) : v04.Metadata :=
  { axes := self.axes
    datasets := self.datasets
    coordinateTransformations := self.coordinateTransformations
    name := self.name
    metadata := self.metadata
    type := self.type
    omero := self.omero }

/-- `Metadata.to_version`: raises `ValueError` when `version` is not in
`SUPPORTED_VERSIONS`; returns `self` for `"0.5"`; returns `self.to_v04()` for
`"0.4"`; for any other supported version the Python body falls through and
returns `None`, embedded as `.ok none`.  `Sum.inl` carries a 0.5 record,
`Sum.inr` a 0.4 record. -/
def Metadata.to_version (self : Metadata) (version : String) :
    Except String (Option (Metadata ⊕ v04.Metadata)) :=
  if version ∉ SUPPORTED_VERSIONS then
    .error ("Unsupported version conversion: 0.5 -> " ++ version)
  else if version = "0.5" then
    .ok (some (Sum.inl self))
  else if version = "0.4" then
    .ok (some (Sum.inr self.to_v04))
  else
    .ok none

/-- The attribute reads performed by `Metadata.from_v04`: the classmethod
accesses exactly these seven attributes of its argument and performs no
`isinstance` check, so it is defined for any object exposing them. -/
def from_v04_fields (axes : List Axis) (datasets : List Dataset)
    (coordinateTransformations : Option (List Transform)) (name : String)
    (metadata : Option MethodMetadata) (type : Option String)
    (omero : Option Omero) : Metadata :=
  { axes := axes
    datasets := datasets
    coordinateTransformations := coordinateTransformations
    name := name
    metadata := metadata
    type := type
    omero := omero }

/-- `Metadata.from_v04` applied at its annotated argument type: a new
0.5-version record with all seven fields copied from the 0.4 record. -/
def Metadata.from_v04 (metadata_v04 : v04.Metadata) : Metadata :=
  from_v04_fields metadata_v04.axes metadata_v04.datasets
    metadata_v04.coordinateTransformations metadata_v04.name
    metadata_v04.metadata metadata_v04.type metadata_v04.omero

/-- `Metadata.from_v04` applied to a 0.5-version record: Python performs no
type check, so the same seven attribute reads go through unchanged. -/
def from_v04_on_v05 (m : Metadata) : Metadata :=
  from_v04_fields m.axes m.datasets m.coordinateTransformations m.name
    m.metadata m.type m.omero

end v05

/-- A metadata record of one of the version-variant types defined by this
fragment, as passed to the class-level factory `from_version`. -/
inductive SomeMetadata where
  | v04Record (m : v04.Metadata)
  | v05Record (m : v05.Metadata)
deriving DecidableEq, Repr

/-- The qualified class name Python reports for each variant, used in the
`Unsupported metadata type` error message. -/
def SomeMetadata.typeName : SomeMetadata → String
  | .v04Record _ => "ngff_zarr.v04.zarr_metadata.Metadata"
  | .v05Record _ => "ngff_zarr.v05.zarr_metadata.Metadata"

/-- Whether a record is an instance of the 0.4-version `Metadata` type
(`isinstance(metadata, Metadata_v04)`). -/
def SomeMetadata.isV04 : SomeMetadata → Bool
  | .v04Record _ => true
  | .v05Record _ => false

/-- `Metadata.from_version` from `v05/zarr_metadata.py`: delegates to
`from_v04` when the argument is an instance of the 0.4-version type, and
otherwise raises `ValueError` naming the encountered type. -/
def v05.Metadata.from_version : SomeMetadata → Except String v05.Metadata
  | .v04Record m => .ok (v05.Metadata.from_v04 m)
  | x => .error ("Unsupported metadata type: " ++ x.typeName)

/-- `Metadata.dimension_names` from `v05/zarr_metadata.py`: the tuple of the
`name` field of every entry of `axes`, in axis order. -/
def v05.Metadata.dimension_names (self : v05.Metadata) : List String :=
  self.axes.map Axis.name

/-- A concrete 0.5-version record used to instantiate closed statements. -/
def sampleMeta : v05.Metadata :=
  { axes := [{ name := "y" }, { name := "x" }]
    datasets := [{ path := "0" }]
    coordinateTransformations := none }

/-- A concrete 0.5-version record with axes named z, y, x. -/
def sampleMetaZYX : v05.Metadata :=
  { axes := [{ name := "z" }, { name := "y" }, { name := "x" }]
    datasets := [{ path := "0" }]
    coordinateTransformations := none }

/-- A concrete 0.5-version record with empty axes. -/
def sampleMetaEmpty : v05.Metadata :=
  { axes := []
    datasets := []
    coordinateTransformations := none }

end NgffZarr

namespace NgffZarr

/-- C1: the claim says `to_version` returns a Metadata record for every target
in {0.4, 0.5, 0.6}, in particular a record for target "0.6".  The code instead
falls through its `if`/`elif` chain for "0.6" and returns Python `None`
(`.ok none` in the embedding): no record is produced, contradicting both the
claim and the documented dispatch contract. -/
theorem to_version_v06_returns_none (m : v05.Metadata) :
    m.to_version "0.6" = .ok none := by
  simp [v05.Metadata.to_version, SUPPORTED_VERSIONS]

/-- C2: for every version string outside `SUPPORTED_VERSIONS`, `to_version`
raises `ValueError` whose message names the attempted transition
`0.5 -> version`, and no converted record is produced. -/
theorem to_version_unsupported (m : v05.Metadata) (version : String)
    (h : version ∉ SUPPORTED_VERSIONS) :
    m.to_version version =
      .error ("Unsupported version conversion: 0.5 -> " ++ version) := by
  simp [v05.Metadata.to_version, h]

/-- Witness for C2 at the concrete version "0.7". -/
theorem to_version_unsupported_witness :
    sampleMeta.to_version "0.7" =
      .error ("Unsupported version conversion: 0.5 -> " ++ "0.7") :=
  to_version_unsupported sampleMeta "0.7" (by decide)

/-- C3 counterexample: `to_version "latest"` raises on a concrete record, so
the claim that it does not raise and behaves as `to_version "0.6"` is false. -/
theorem to_version_latest_raises :
    sampleMeta.to_version "latest" =
      .error ("Unsupported version conversion: 0.5 -> latest") := by
  simp [v05.Metadata.to_version, SUPPORTED_VERSIONS, sampleMeta]

/-- C3 amended: `to_version` does not canonicalize the alias "latest"; it
checks membership in `SUPPORTED_VERSIONS` only, so `to_version "latest"`
raises `UnsupportedVersion` naming the transition `0.5 -> latest`, even though
`VERSION_ALIASES` maps "latest" to "0.6".  Only strings in
{"0.4", "0.5", "0.6"} are accepted. -/
theorem to_version_latest_amended :
    (∀ m : v05.Metadata,
      m.to_version "latest" =
        .error ("Unsupported version conversion: 0.5 -> latest")) ∧
    List.lookup "latest" VERSION_ALIASES = some "0.6" := by
  refine ⟨fun m => ?_, by decide⟩
  simp [v05.Metadata.to_version, SUPPORTED_VERSIONS]

/-- C4: converting a 0.4 record to 0.5 via `from_v04` and back via `to_v04`
yields a record equal to the original, field-equal in all seven fields. -/
theorem from_v04_to_v04_roundtrip (m04 : v04.Metadata) :
    (v05.Metadata.from_v04 m04).to_v04 = m04 ∧
    ((v05.Metadata.from_v04 m04).to_v04.axes = m04.axes ∧
     (v05.Metadata.from_v04 m04).to_v04.datasets = m04.datasets ∧
     (v05.Metadata.from_v04 m04).to_v04.coordinateTransformations =
       m04.coordinateTransformations ∧
     (v05.Metadata.from_v04 m04).to_v04.name = m04.name ∧
     (v05.Metadata.from_v04 m04).to_v04.metadata = m04.metadata ∧
     (v05.Metadata.from_v04 m04).to_v04.type = m04.type ∧
     (v05.Metadata.from_v04 m04).to_v04.omero = m04.omero) :=
  ⟨rfl, rfl, rfl, rfl, rfl, rfl, rfl, rfl⟩

/-- C5: `to_v04` is total (it is a plain function in the embedding, as in the
source) and each of the seven fields of the produced 0.4 record equals the
corresponding field of the source 0.5 record. -/
theorem to_v04_fields (m : v05.Metadata) :
    m.to_v04.axes = m.axes ∧
    m.to_v04.datasets = m.datasets ∧
    m.to_v04.coordinateTransformations = m.coordinateTransformations ∧
    m.to_v04.name = m.name ∧
    m.to_v04.metadata = m.metadata ∧
    m.to_v04.type = m.type ∧
    m.to_v04.omero = m.omero :=
  ⟨rfl, rfl, rfl, rfl, rfl, rfl, rfl⟩

/-- C6: `to_version "0.5"` returns the receiver itself: the source's
`return self` is embedded as returning the receiver unchanged, so the result
carries exactly `m`, not a reconstruction. -/
theorem to_version_identity (m : v05.Metadata) :
    m.to_version "0.5" = .ok (some (Sum.inl m)) := by
  simp [v05.Metadata.to_version, SUPPORTED_VERSIONS]

/-- C7: `from_version` returns `from_v04 m` exactly when the argument is an
instance of the 0.4-version `Metadata` type, and otherwise raises
`ValueError` naming the encountered type; it raises if and only if the
argument is not of the 0.4-version type. -/
theorem from_version_spec :
    (∀ m04 : v04.Metadata,
      v05.Metadata.from_version (.v04Record m04) =
        .ok (v05.Metadata.from_v04 m04)) ∧
    (∀ x : SomeMetadata, x.isV04 = false →
      v05.Metadata.from_version x =
        .error ("Unsupported metadata type: " ++ x.typeName)) ∧
    (∀ x : SomeMetadata,
      (∃ msg, v05.Metadata.from_version x = .error msg) ↔ x.isV04 = false) := by
  refine ⟨fun m04 => rfl, fun x hx => ?_, fun x => ?_⟩
  · cases x with
    | v04Record m => simp [SomeMetadata.isV04] at hx
    | v05Record m => rfl
  · cases x with
    | v04Record m =>
        simp [v05.Metadata.from_version, SomeMetadata.isV04]
    | v05Record m =>
        simp [v05.Metadata.from_version, SomeMetadata.isV04,
          SomeMetadata.typeName]

/-- Witness for C7: applied at a concrete 0.5 record, which is not of the
0.4-version type, `from_version` raises naming the encountered type. -/
theorem from_version_spec_witness :
    v05.Metadata.from_version (.v05Record sampleMeta) =
      .error ("Unsupported metadata type: " ++
        (SomeMetadata.v05Record sampleMeta).typeName) :=
  from_version_spec.2.1 (.v05Record sampleMeta) rfl

/-- C8: `dimension_names` is the list of the `name` field of every entry of
`axes` in axis order, its length always equals the length of `axes`, it is
empty for a record with empty `axes`, and for axes named z, y, x it is
exactly ["z", "y", "x"]. -/
theorem dimension_names_spec :
    (∀ m : v05.Metadata,
      m.dimension_names = m.axes.map Axis.name ∧
      m.dimension_names.length = m.axes.length) ∧
    sampleMetaEmpty.dimension_names = [] ∧
    sampleMetaZYX.dimension_names = ["z", "y", "x"] := by
  refine ⟨fun m => ⟨rfl, ?_⟩, rfl, rfl⟩
  simp [v05.Metadata.dimension_names]

/-- C9: the canonicalization map `VERSION_ALIASES` sends "latest" to the
newest supported version "0.6" and every concrete supported version to
itself, and `SUPPORTED_VERSIONS` is exactly ["0.4", "0.5", "0.6"] in that
order. -/
theorem version_registry_spec :
    SUPPORTED_VERSIONS = ["0.4", "0.5", "0.6"] ∧
    List.lookup "latest" VERSION_ALIASES = some "0.6" ∧
    List.lookup "0.4" VERSION_ALIASES = some "0.4" ∧
    List.lookup "0.5" VERSION_ALIASES = some "0.5" ∧
    List.lookup "0.6" VERSION_ALIASES = some "0.6" := by
  refine ⟨rfl, ?_, ?_, ?_, ?_⟩ <;> decide

/-- C10: `from_v04` performs no type or shape validation: it reads exactly
seven attributes, so it is total over any bundle of those seven field values,
and in particular applied to a 0.5-version record it returns a new 0.5 record
carrying that record's field values — while `from_version` rejects the same
record with `UnsupportedSourceType`. -/
theorem from_v04_no_validation (m : v05.Metadata) :
    ((v05.from_v04_on_v05 m).axes = m.axes ∧
     (v05.from_v04_on_v05 m).datasets = m.datasets ∧
     (v05.from_v04_on_v05 m).coordinateTransformations =
       m.coordinateTransformations ∧
     (v05.from_v04_on_v05 m).name = m.name ∧
     (v05.from_v04_on_v05 m).metadata = m.metadata ∧
     (v05.from_v04_on_v05 m).type = m.type ∧
     (v05.from_v04_on_v05 m).omero = m.omero) ∧
    v05.Metadata.from_version (.v05Record m) =
      .error ("Unsupported metadata type: ngff_zarr.v05.zarr_metadata.Metadata") :=
  ⟨⟨rfl, rfl, rfl, rfl, rfl, rfl, rfl⟩, rfl⟩

end NgffZarr
